import Mathlib

/-!
# SpotmarktSyncService — verification of the synchronization engine

Shallow embedding of the Python sources:

* `src/models.py`        — `AdminPanelUser`, `AdminPanelZrContact`
* `src/admin_panel_client.py` — `get_all_contacts` (mandatory-field filter and
  the leftover mock filter)
* `src/shopware_client.py`    — `create_customer_generic`,
  `update_customer_generic`, the customer lookups, and the reference-data
  resolution helpers (the latter modelled as an environment of resolution
  functions, since their bodies are pure remote queries)
* `src/sync_service.py`  — `sync_users`, `sync_zr_customers` (the
  reconciliation loops with per-record exception handling)

Remote HTTP calls are modelled by explicit environments/collaborator records;
payload construction is embedded verbatim from the source.
-/

namespace Spotmarkt

/-- `src/models.py` — `AdminPanelUser` (pydantic model; `uStID` optional). -/
structure AdminPanelUser where
  vorname : String
  name : String
  eMailadresse : String
  uStID : Option String
  zrNummer : String
  firma : String
  strasse : String
  postleitzahl : String
  stadt : String
  land : String
  adresstyp : String
  entraID : String
deriving Repr, DecidableEq

/-- `src/models.py` — `AdminPanelZrContact` (no personal name, no email). -/
structure AdminPanelZrContact where
  uStID : Option String
  zrNummer : String
  firma : String
  strasse : String
  postleitzahl : String
  stadt : String
  land : String
  adresstyp : String
deriving Repr, DecidableEq

/-- The `Union[AdminPanelUser, AdminPanelZrContact]` argument of
`create_customer_generic` / `update_customer_generic`, fused with the
`is_zr_contact` flag (every caller passes the flag matching the variant:
`create_customer` / `update_customer` pass `False` with an `AdminPanelUser`,
`create_zr_customer` / `update_zr_customer` pass `True` with an
`AdminPanelZrContact`). -/
inductive Contact where
  | user (u : AdminPanelUser)
  | zr (z : AdminPanelZrContact)
deriving Repr, DecidableEq

namespace Contact

/-- The `is_zr_contact` flag as determined by every call site. -/
def isZr : Contact → Bool
  | .user _ => false
  | .zr _ => true

def zrNummer : Contact → String
  | .user u => u.zrNummer
  | .zr z => z.zrNummer

def firma : Contact → String
  | .user u => u.firma
  | .zr z => z.firma

def uStID : Contact → Option String
  | .user u => u.uStID
  | .zr z => z.uStID

def strasse : Contact → String
  | .user u => u.strasse
  | .zr z => z.strasse

def postleitzahl : Contact → String
  | .user u => u.postleitzahl
  | .zr z => z.postleitzahl

def stadt : Contact → String
  | .user u => u.stadt
  | .zr z => z.stadt

def land : Contact → String
  | .user u => u.land
  | .zr z => z.land

end Contact

/-- Python truthiness of an optional string (`if contact.get('x')`,
`if contact.uStID`, `all([...])` over possibly-`None` ids): `None` and the
empty string are falsy. -/
def pyTruthy : Option String → Bool
  | none => false
  | some s => s ≠ ""

/-- `[contact.uStID] if contact.uStID else []`. -/
def pyVatIds (uStID : Option String) : List String :=
  match uStID with
  | some s => if s ≠ "" then [s] else []
  | none => []

/-- One entry of the `"addresses"` list in a customer payload
(`shopware_client.py`, lines 159–170 / 223–234). `id` and `countryId` are
optional because the Python puts possibly-`None` values there. -/
structure Address where
  id : Option String
  firstName : Option String
  lastName : Option String
  street : String
  zipcode : String
  city : String
  countryId : Option String
  company : String
deriving Repr, DecidableEq

/-- The `customer_data` dict built by `create_customer_generic` /
`update_customer_generic`. `customFields` is `none` when the key is absent
from the dict (the update payload) and `some v` when present with value `v`
(`v` itself optional: the ZR create payload stores `None` there).
`email` is optional because `getattr(contact, "eMailadresse", None)` can be
`None`; `groupId` because `_get_customer_group_id` can return `None`. -/
structure CustomerData where
  email : Option String
  salutationId : String
  firstName : Option String
  lastName : Option String
  customerNumber : String
  company : String
  vatIds : List String
  groupId : Option String
  salesChannelId : String
  accountType : String
  languageId : String
  defaultBillingAddressId : Option String
  defaultShippingAddressId : Option String
  defaultPaymentMethodId : String
  addresses : List Address
  customFields : Option (Option String)
deriving Repr, DecidableEq

/-- Resolution results of the remote reference-data helpers of
`ShopwareClient`: `_get_customer_group_id(name)` and
`_get_country_id(iso)` (both return an id or `None`). -/
structure ShopwareEnv where
  getCustomerGroupId : String → Option String
  getCountryId : String → Option String

/-- What `update_customer_generic` reads from the `existing_customer` dict
returned by the lookup: `existing_customer["id"]` and
`existing_customer.get("attributes", {}).get("defaultBillingAddressId")`
(the shipping id is carried along to model that the code never reads it). -/
structure ExistingCustomer where
  id : String
  attrDefaultBillingAddressId : Option String
  attrDefaultShippingAddressId : Option String
deriving Repr, DecidableEq

/-- Hardcoded default salutation id (`shopware_client.py` line 134/203). -/
def salutationIdConst : String := "0194f5c3188270cebd82c273d4142f1a"

/-- Hardcoded default sales channel id (line 135/204). -/
def salesChannelIdConst : String := "019523bfc9e77764a3373ddc1bafdb18"

/-- Hardcoded default language id (line 155/219). -/
def languageIdConst : String := "0194f5c317e673168b59b25c7f5514cc"

/-- Hardcoded default payment method id (line 158/222). -/
def paymentMethodIdConst : String := "0197a6f28afe77af91a0c5e23c4c4633"

/-- The group name looked up per contact shape:
`"ZR-Kunden" if is_zr_contact else "User-Kunden"`. -/
def groupName (isZr : Bool) : String :=
  if isZr then "ZR-Kunden" else "User-Kunden"

/-- The payload `email` field:
`f"zr{contact.zrNummer}@einrichtungspartnerring.com" if is_zr_contact else getattr(contact, "eMailadresse", None)`. -/
def payloadEmail (c : Contact) : Option String :=
  match c with
  | .user u => some u.eMailadresse
  | .zr z => some ("zr" ++ z.zrNummer ++ "@einrichtungspartnerring.com")

/-- `None if is_zr_contact else contact.vorname`. -/
def payloadFirstName (c : Contact) : Option String :=
  match c with
  | .user u => some u.vorname
  | .zr _ => none

/-- `None if is_zr_contact else contact.name`. -/
def payloadLastName (c : Contact) : Option String :=
  match c with
  | .user u => some u.name
  | .zr _ => none

/-- The `customFields` dict of the create payload (lines 171–173):
`{"custom_identifier_user_entraid_": contact.entraID if not is_zr_contact else None}`. -/
def createCustomFields (c : Contact) : Option (Option String) :=
  match c with
  | .user u => some (some u.entraID)
  | .zr _ => some none

/-- The `customer_data` dict literal of `create_customer_generic`
(`shopware_client.py` lines 144–174). -/
def createCustomerData (env : ShopwareEnv) (default_address_id : String)
    (c : Contact) : CustomerData :=
  { email := payloadEmail c
    salutationId := salutationIdConst
    firstName := payloadFirstName c
    lastName := payloadLastName c
    customerNumber := c.zrNummer
    company := c.firma ++ " (" ++ c.zrNummer ++ ")"
    vatIds := pyVatIds c.uStID
    groupId := env.getCustomerGroupId (groupName c.isZr)
    salesChannelId := salesChannelIdConst
    accountType := "business"
    languageId := languageIdConst
    defaultBillingAddressId := some default_address_id
    defaultShippingAddressId := some default_address_id
    defaultPaymentMethodId := paymentMethodIdConst
    addresses := [{
      id := some default_address_id
      firstName := payloadFirstName c
      lastName := payloadLastName c
      street := c.strasse
      zipcode := c.postleitzahl
      city := c.stadt
      countryId := env.getCountryId c.land
      company := c.firma }]
    customFields := createCustomFields c }

/-- `create_customer_generic` (`shopware_client.py` lines 129–189) up to and
including building `customer_data`; the trailing POST is remote.
`default_address_id` is the fresh `str(uuid4()).replace("-", "")` passed in
explicitly. Raises `ValueError` when
`not all([salutation_id, sales_channel_id, customer_group_id])` — note that
`country_id` is *not* part of that check. -/
def create_customer_generic (env : ShopwareEnv) (default_address_id : String)
    (c : Contact) : Except String CustomerData :=
  let salutation_id := salutationIdConst
  let sales_channel_id := salesChannelIdConst
  let customer_group_id := env.getCustomerGroupId (groupName c.isZr)
  if ¬ (pyTruthy (some salutation_id) ∧ pyTruthy (some sales_channel_id) ∧
        pyTruthy customer_group_id) then
    .error "Failed to get required Shopware IDs"
  else
    .ok (createCustomerData env default_address_id c)

/-- `update_customer_generic` (`shopware_client.py` lines 197–250) up to and
including building `customer_data`; the trailing PATCH is remote. Builds the
payload unconditionally (no id check, no exception before the PATCH);
`default_address_id` is read from the existing customer's
`attributes.defaultBillingAddressId` only; the payload dict has no
`customFields` key. -/
def update_customer_generic (env : ShopwareEnv) (c : Contact)
    (existing : ExistingCustomer) : CustomerData :=
  let default_address_id := existing.attrDefaultBillingAddressId
  let salutation_id := salutationIdConst
  let sales_channel_id := salesChannelIdConst
  let customer_group_id := env.getCustomerGroupId (groupName c.isZr)
  let country_id := env.getCountryId c.land
  { email := payloadEmail c
    salutationId := salutation_id
    firstName := payloadFirstName c
    lastName := payloadLastName c
    customerNumber := c.zrNummer
    company := c.firma ++ " (" ++ c.zrNummer ++ ")"
    vatIds := pyVatIds c.uStID
    groupId := customer_group_id
    salesChannelId := sales_channel_id
    accountType := "business"
    languageId := languageIdConst
    defaultBillingAddressId := default_address_id
    defaultShippingAddressId := default_address_id
    defaultPaymentMethodId := paymentMethodIdConst
    addresses := [{
      id := default_address_id
      firstName := payloadFirstName c
      lastName := payloadLastName c
      street := c.strasse
      zipcode := c.postleitzahl
      city := c.stadt
      countryId := country_id
      company := c.firma }]
    customFields := none }

/-! ## The reconciliation loops of `src/sync_service.py`

`SyncService` receives its two collaborators by constructor injection; the
loops only call `get_customer_by_custom_field_entraid`,
`get_customer_by_customer_number`, `update_customer` / `update_zr_customer`
and `create_customer` / `create_zr_customer`, each of which can raise.  The
collaborator is modelled as a record of `Except`-returning functions. -/

/-- The `ShopwareClient` methods called by the loops in `sync_service.py`,
each possibly raising (`Except.error`). -/
structure LoopClient where
  get_customer_by_custom_field_entraid :
    String → Except String (Option ExistingCustomer)
  get_customer_by_customer_number :
    String → Except String (Option ExistingCustomer)
  update_customer : AdminPanelUser → ExistingCustomer → Except String Unit
  create_customer : AdminPanelUser → Except String Unit
  update_zr_customer : AdminPanelZrContact → ExistingCustomer → Except String Unit
  create_zr_customer : AdminPanelZrContact → Except String Unit

/-- Per-record outcome of one iteration of a sync loop: the record is tallied
into exactly one of `updated_users += 1`, `created_users += 1`,
`failed_users += 1`. -/
inductive Outcome where
  | updated
  | created
  | failed
deriving Repr, DecidableEq

/-- Which write endpoints an iteration invoked (`update_customer`-style PATCH
or `create_customer`-style POST), in order. -/
inductive WriteCall where
  | update
  | create
deriving Repr, DecidableEq

/-- The body of the `for user in admin_users` loop of `sync_users`
(`sync_service.py` lines 26–42): lookup by `user.entraID`, then update when a
match exists, create otherwise; every exception is caught by the
`except` clause and tallied as failed.  Also records which write calls were
made. -/
def processUser (cl : LoopClient) (u : AdminPanelUser) :
    Outcome × List WriteCall :=
  match cl.get_customer_by_custom_field_entraid u.entraID with
  | .error _ => (.failed, [])
  | .ok (some existing_customer) =>
    match cl.update_customer u existing_customer with
    | .ok _ => (.updated, [.update])
    | .error _ => (.failed, [.update])
  | .ok none =>
    match cl.create_customer u with
    | .ok _ => (.created, [.create])
    | .error _ => (.failed, [.create])

/-- The body of the `for zr_contact in zr_contacts` loop of
`sync_zr_customers` (`sync_service.py` lines 67–83): lookup by
`zr_contact.zrNummer`, update on match, create otherwise, exceptions tallied
as failed. -/
def processZr (cl : LoopClient) (z : AdminPanelZrContact) :
    Outcome × List WriteCall :=
  match cl.get_customer_by_customer_number z.zrNummer with
  | .error _ => (.failed, [])
  | .ok (some existing_customer) =>
    match cl.update_zr_customer z existing_customer with
    | .ok _ => (.updated, [.update])
    | .error _ => (.failed, [.update])
  | .ok none =>
    match cl.create_zr_customer z with
    | .ok _ => (.created, [.create])
    | .error _ => (.failed, [.create])

/-- The three per-list counters incremented by the loops. -/
structure Counts where
  updated : Nat
  created : Nat
  failed : Nat
deriving Repr, DecidableEq

def Counts.add (a b : Counts) : Counts :=
  ⟨a.updated + b.updated, a.created + b.created, a.failed + b.failed⟩

/-- The counter increment performed for a single record. -/
def Outcome.one : Outcome → Counts
  | .updated => ⟨1, 0, 0⟩
  | .created => ⟨0, 1, 0⟩
  | .failed => ⟨0, 0, 1⟩

/-- Accumulated counters of a whole loop over the fetched list, one record at
a time. -/
def tally (f : α → Outcome) : List α → Counts
  | [] => ⟨0, 0, 0⟩
  | x :: xs => (Outcome.one (f x)).add (tally f xs)

/-- Counters of the `sync_users` loop. -/
def usersTally (cl : LoopClient) (users : List AdminPanelUser) : Counts :=
  tally (fun u => (processUser cl u).1) users

/-- Counters of the `sync_zr_customers` loop. -/
def zrTally (cl : LoopClient) (zrs : List AdminPanelZrContact) : Counts :=
  tally (fun z => (processZr cl z).1) zrs

/-- `sync_users` (`sync_service.py` lines 14–53), given the list fetched by
`admin_client.get_all_contacts()`: returns
`(total_users, updated_users, created_users)` — the failed counter is logged
but not returned. -/
def sync_users (cl : LoopClient) (admin_users : List AdminPanelUser) :
    Nat × Nat × Nat :=
  (admin_users.length, (usersTally cl admin_users).updated,
    (usersTally cl admin_users).created)

/-- `sync_zr_customers` (`sync_service.py` lines 55–94), given the list
fetched by `admin_client.get_all_zr_contacts()`. -/
def sync_zr_customers (cl : LoopClient) (zr_contacts : List AdminPanelZrContact) :
    Nat × Nat × Nat :=
  (zr_contacts.length, (zrTally cl zr_contacts).updated,
    (zrTally cl zr_contacts).created)

/-- Did the loop body for this user raise (lookup error, or error from the
write call it dispatched to)? -/
def userStepRaised (cl : LoopClient) (u : AdminPanelUser) : Bool :=
  match cl.get_customer_by_custom_field_entraid u.entraID with
  | .error _ => true
  | .ok (some existing_customer) =>
    match cl.update_customer u existing_customer with
    | .ok _ => false
    | .error _ => true
  | .ok none =>
    match cl.create_customer u with
    | .ok _ => false
    | .error _ => true

/-- Did the loop body for this ZR contact raise? -/
def zrStepRaised (cl : LoopClient) (z : AdminPanelZrContact) : Bool :=
  match cl.get_customer_by_customer_number z.zrNummer with
  | .error _ => true
  | .ok (some existing_customer) =>
    match cl.update_zr_customer z existing_customer with
    | .ok _ => false
    | .error _ => true
  | .ok none =>
    match cl.create_zr_customer z with
    | .ok _ => false
    | .error _ => true

/-! ## The individual-contact fetch of `src/admin_panel_client.py` -/

/-- A raw record of the JSON array returned by
`GET /api/contacts/list_contact_gs`; every field may be missing (`None`). -/
structure RawContact where
  vorname : Option String
  name : Option String
  eMailadresse : Option String
  uStID : Option String
  zrNummer : Option String
  firma : Option String
  strasse : Option String
  postleitzahl : Option String
  stadt : Option String
  land : Option String
  adresstyp : Option String
  entraID : Option String
deriving Repr, DecidableEq

/-- The mandatory-field condition of the list comprehension in
`get_all_contacts` (`admin_panel_client.py` lines 24–28), in source order:
`contact.get('adresstyp') and contact.get('eMailadresse') and ...`. -/
def hasMandatoryFields (r : RawContact) : Bool :=
  pyTruthy r.adresstyp && pyTruthy r.eMailadresse && pyTruthy r.vorname &&
  pyTruthy r.name && pyTruthy r.entraID && pyTruthy r.firma &&
  pyTruthy r.zrNummer && pyTruthy r.strasse && pyTruthy r.postleitzahl &&
  pyTruthy r.stadt && pyTruthy r.land

/-- `AdminPanelUser(**contact)` — pydantic construction, failing when a
required field is absent (`uStID` is optional and passed through). -/
def rawToUser (r : RawContact) : Option AdminPanelUser :=
  match r.vorname, r.name, r.eMailadresse, r.zrNummer, r.firma, r.strasse,
      r.postleitzahl, r.stadt, r.land, r.adresstyp, r.entraID with
  | some vorname, some name, some eMail, some zrNummer, some firma,
      some strasse, some plz, some stadt, some land, some adresstyp,
      some entraID =>
    some ⟨vorname, name, eMail, r.uStID, zrNummer, firma, strasse, plz,
      stadt, land, adresstyp, entraID⟩
  | _, _, _, _, _, _, _, _, _, _, _ => none

/-- `get_all_contacts` (`admin_panel_client.py` lines 12–42) applied to the
parsed server response: the mandatory-field comprehension followed by the
`# MOCK TODO - FLZ` filter
`[contact for contact in contacts if contact.eMailadresse == "thomas.kauer@kauer.ch"]`. -/
def get_all_contacts (contacts_data : List RawContact) : List AdminPanelUser :=
  let contacts := (contacts_data.filter hasMandatoryFields).filterMap rawToUser
  contacts.filter (fun contact => contact.eMailadresse == "thomas.kauer@kauer.ch")

/-! ## Destination state model (for the idempotence claim)

The destination stores customers keyed by an opaque id.  Per the spec's
side-effect contract, every create (POST) and update (PATCH) is a
full-overwrite write: the stored field values become exactly the payload's,
and a payload without the `customFields` key clears the nullable custom
field.  A stored customer's `customFields` is kept in normal form
`some v` where `v : Option String` is the stored value of
`custom_identifier_user_entraid_` (`v = none` both for "cleared" and for
"written as null"). -/

/-- Destination-side effect of a full-overwrite write: stored field values
are the payload's, with the custom field normalised to its stored value
(absent key ⇒ cleared ⇒ `none`; present key ⇒ its, possibly null, value). -/
def applyOverwrite (p : CustomerData) : CustomerData :=
  { p with customFields := some p.customFields.join }

/-- A customer record held by the destination. -/
structure DestCustomer where
  custId : String
  fields : CustomerData
deriving Repr, DecidableEq

/-- `get_customer_by_custom_field_entraid` against the destination state:
`filter[customFields.custom_identifier_user_entraid_] = eid`, first match
(`customers[0] if customers else None`). -/
def findByEntraid (dest : List DestCustomer) (eid : String) :
    Option DestCustomer :=
  dest.find? (fun c => c.fields.customFields == some (some eid))

/-- `get_customer_by_customer_number` against the destination state:
`filter[customerNumber] = n`, first match. -/
def findByCustomerNumber (dest : List DestCustomer) (n : String) :
    Option DestCustomer :=
  dest.find? (fun c => c.fields.customerNumber == n)

/-- The `existing_customer` dict as the lookup returns it (JSON:API: `id`
plus `attributes`). -/
def toExisting (c : DestCustomer) : ExistingCustomer :=
  ⟨c.custId, c.fields.defaultBillingAddressId, c.fields.defaultShippingAddressId⟩

/-- `POST /api/customer`: the destination mints an id and stores the
payload. -/
def destCreate (dest : List DestCustomer) (custId : String)
    (p : CustomerData) : List DestCustomer :=
  dest ++ [⟨custId, applyOverwrite p⟩]

/-- `PATCH /api/customer/{id}`: full overwrite of the customer with that
id. -/
def destUpdate (dest : List DestCustomer) (custId : String)
    (p : CustomerData) : List DestCustomer :=
  dest.map (fun c => if c.custId = custId then ⟨c.custId, applyOverwrite p⟩ else c)

/-- State threaded through a run: the destination plus a counter indexing
the fresh-id supplies (one customer id and one address id minted per
successful create). -/
structure RunState where
  dest : List DestCustomer
  k : Nat
deriving Repr, DecidableEq

/-- One iteration of the `sync_users` loop against the destination state
(reliable transport: lookups and accepted writes never raise; the only
caught exception is `create_customer_generic`'s `ValueError`). -/
def stepUser (env : ShopwareEnv) (fc fa : Nat → String) (s : RunState)
    (u : AdminPanelUser) : RunState × Outcome :=
  match findByEntraid s.dest u.entraID with
  | some existing =>
    let p := update_customer_generic env (.user u) (toExisting existing)
    (⟨destUpdate s.dest existing.custId p, s.k⟩, .updated)
  | none =>
    match create_customer_generic env (fa s.k) (.user u) with
    | .ok p => (⟨destCreate s.dest (fc s.k) p, s.k + 1⟩, .created)
    | .error _ => (s, .failed)

/-- One iteration of the `sync_zr_customers` loop against the destination
state. -/
def stepZr (env : ShopwareEnv) (fc fa : Nat → String) (s : RunState)
    (z : AdminPanelZrContact) : RunState × Outcome :=
  match findByCustomerNumber s.dest z.zrNummer with
  | some existing =>
    let p := update_customer_generic env (.zr z) (toExisting existing)
    (⟨destUpdate s.dest existing.custId p, s.k⟩, .updated)
  | none =>
    match create_customer_generic env (fa s.k) (.zr z) with
    | .ok p => (⟨destCreate s.dest (fc s.k) p, s.k + 1⟩, .created)
    | .error _ => (s, .failed)

/-- The `sync_users` loop over the whole list, threading destination state
and accumulating the counters. -/
def runPassU (env : ShopwareEnv) (fc fa : Nat → String) (s : RunState) :
    List AdminPanelUser → RunState × Counts
  | [] => (s, ⟨0, 0, 0⟩)
  | u :: us =>
    let (s', o) := stepUser env fc fa s u
    let (s'', cs) := runPassU env fc fa s' us
    (s'', (Outcome.one o).add cs)

/-- The `sync_zr_customers` loop over the whole list. -/
def runPassZ (env : ShopwareEnv) (fc fa : Nat → String) (s : RunState) :
    List AdminPanelZrContact → RunState × Counts
  | [] => (s, ⟨0, 0, 0⟩)
  | z :: zs =>
    let (s', o) := stepZr env fc fa s z
    let (s'', cs) := runPassZ env fc fa s' zs
    (s'', (Outcome.one o).add cs)

/-- One full synchronization run (`run_sync` in `main.py`): the user pass,
then the ZR pass. Returns the final state and the two passes' counters. -/
def runSync (env : ShopwareEnv) (fc fa : Nat → String) (s : RunState)
    (users : List AdminPanelUser) (zrs : List AdminPanelZrContact) :
    RunState × Counts × Counts :=
  let (s₁, cu) := runPassU env fc fa s users
  let (s₂, cz) := runPassZ env fc fa s₁ zrs
  (s₂, cu, cz)

/-- The destination customer produced by run 1's create of the `k`-th
created contact. -/
def mkCust (env : ShopwareEnv) (fc fa : Nat → String) (k : Nat)
    (c : Contact) : DestCustomer :=
  ⟨fc k, applyOverwrite (createCustomerData env (fa k) c)⟩

/-- Customers created by a streak of creates starting at supply index `k`. -/
def mkUserCusts (env : ShopwareEnv) (fc fa : Nat → String) (k : Nat) :
    List AdminPanelUser → List DestCustomer
  | [] => []
  | u :: us => mkCust env fc fa k (.user u) :: mkUserCusts env fc fa (k + 1) us

/-- ZR customers created by a streak of creates starting at index `k`. -/
def mkZrCusts (env : ShopwareEnv) (fc fa : Nat → String) (k : Nat) :
    List AdminPanelZrContact → List DestCustomer
  | [] => []
  | z :: zs => mkCust env fc fa k (.zr z) :: mkZrCusts env fc fa (k + 1) zs

/-- Clearing a stored customer's external-identity custom field (the effect
of a full-overwrite update whose payload omits `customFields`). -/
def clearCF (c : DestCustomer) : DestCustomer :=
  ⟨c.custId, { c.fields with customFields := some none }⟩

/-- `run_sync` (`main.py`): the two passes, each over its own fetched list,
with independent counters. -/
def run_sync_loops (cl : LoopClient) (users : List AdminPanelUser)
    (zrs : List AdminPanelZrContact) : (Nat × Nat × Nat) × (Nat × Nat × Nat) :=
  (sync_users cl users, sync_zr_customers cl zrs)

/-! ## Concrete sample data (used by witnesses and counterexamples) -/

def sampleUser : AdminPanelUser :=
  ⟨"Thomas", "Kauer", "thomas.kauer@kauer.ch", none, "100001", "Kauer AG",
    "Weg 1", "8000", "Zuerich", "CH", "Rechnungsanschrift", "eid-1"⟩

def sampleZr : AdminPanelZrContact :=
  ⟨none, "112212", "Firma X", "Str 2", "50667", "Koeln", "DE",
    "Rechnungsanschrift;Lieferanschrift"⟩

/-- An environment in which every reference-data lookup succeeds. -/
def sampleEnv : ShopwareEnv :=
  ⟨fun _ => some "group-1", fun _ => some "country-1"⟩

/-- An environment in which no country can be resolved (the country filter
returns an empty list, `_get_country_id` returns `None`). -/
def noCountryEnv : ShopwareEnv :=
  ⟨fun _ => some "group-1", fun _ => none⟩

def sampleExisting : ExistingCustomer := ⟨"cust-1", some "bill-1", some "ship-1"⟩

/-- An existing destination customer with no default billing address but
with a default shipping address. -/
def sampleExistingNoBilling : ExistingCustomer := ⟨"cust-2", none, some "ship-1"⟩

/-- A collaborator whose lookups always find `sampleExisting` and whose
writes succeed. -/
def clFound : LoopClient :=
  ⟨fun _ => .ok (some sampleExisting), fun _ => .ok (some sampleExisting),
    fun _ _ => .ok (), fun _ => .ok (), fun _ _ => .ok (), fun _ => .ok ()⟩

/-- A collaborator whose lookups find nothing and whose writes succeed. -/
def clNotFound : LoopClient :=
  ⟨fun _ => .ok none, fun _ => .ok none,
    fun _ _ => .ok (), fun _ => .ok (), fun _ _ => .ok (), fun _ => .ok ()⟩

/-- An injective customer-id supply. -/
def fcW (n : Nat) : String := ⟨'c' :: List.replicate n 'x'⟩

/-- An address-id supply. -/
def faW (n : Nat) : String := ⟨'a' :: List.replicate n 'x'⟩

/-- A server-returned individual contact record with every mandatory field
populated, whose email is the hardcoded mock one. -/
def rawThomas : RawContact :=
  ⟨some "Thomas", some "Kauer", some "thomas.kauer@kauer.ch", none,
    some "100001", some "Kauer AG", some "Weg 1", some "8000",
    some "Zuerich", some "CH", some "Rechnungsanschrift", some "eid-1"⟩

/-- A server-returned individual contact record with every mandatory field
populated, whose email is not the hardcoded mock one. -/
def rawAnna : RawContact :=
  ⟨some "Anna", some "Muster", some "anna@example.com", none,
    some "100002", some "Muster GmbH", some "Gasse 2", some "3000",
    some "Bern", some "CH", some "Lieferanschrift", some "eid-2"⟩

/-- First synchronization run of the two-run scenario: empty destination,
one individual contact, no ZR contacts. -/
def c3run1 : RunState × Counts × Counts :=
  runSync sampleEnv fcW faW ⟨[], 0⟩ [sampleUser] []

/-- Second synchronization run, same source, no intervening destination
mutation. -/
def c3run2 : RunState × Counts × Counts :=
  runSync sampleEnv fcW faW c3run1.1 [sampleUser] []

/-! # Theorems -/

/-- Helper: when the group id resolves to a truthy value, the create path
does not raise and returns exactly the `customer_data` literal. -/
theorem create_ok_of_group (env : ShopwareEnv) (aid : String) (c : Contact)
    (hg : pyTruthy (env.getCustomerGroupId (groupName c.isZr)) = true) :
    create_customer_generic env aid c = .ok (createCustomerData env aid c) := by
  have h1 : pyTruthy (some salutationIdConst) = true := by decide
  have h2 : pyTruthy (some salesChannelIdConst) = true := by decide
  simp [create_customer_generic, h1, h2, hg]

/-- Helper: when the group id does not resolve to a truthy value, the create
path raises `ValueError`. -/
theorem create_error_of_group (env : ShopwareEnv) (aid : String) (c : Contact)
    (hg : ¬ pyTruthy (env.getCustomerGroupId (groupName c.isZr)) = true) :
    create_customer_generic env aid c =
      .error "Failed to get required Shopware IDs" := by
  simp [create_customer_generic, hg]

/-- Helper: inversion — a successful create returns exactly the
`customer_data` literal. -/
theorem create_ok_inv {env : ShopwareEnv} {aid : String} {c : Contact}
    {p : CustomerData}
    (hc : create_customer_generic env aid c = .ok p) :
    p = createCustomerData env aid c := by
  by_cases hg : pyTruthy (env.getCustomerGroupId (groupName c.isZr)) = true
  · rw [create_ok_of_group env aid c hg] at hc
    exact (Except.ok.inj hc).symm
  · rw [create_error_of_group env aid c hg] at hc
    exact absurd hc (by simp)

/-- **C2** — the code does *not* abort a record whose country is
unresolvable: `_get_country_id` returns `None`, `country_id` is omitted from
the `all([...])` check, no exception is raised, and the payloads (both create
and update) are built with `countryId = null`.  The claim's
`CountryNotFound`-style mapping failure does not exist in the code. -/
theorem unresolved_country_record_not_aborted :
    noCountryEnv.getCountryId sampleUser.land = none ∧
    create_customer_generic noCountryEnv "addr-1" (.user sampleUser) =
      .ok (createCustomerData noCountryEnv "addr-1" (.user sampleUser)) ∧
    (createCustomerData noCountryEnv "addr-1" (.user sampleUser)).addresses.map
      Address.countryId = [none] ∧
    (update_customer_generic noCountryEnv (.user sampleUser)
      sampleExisting).addresses.map Address.countryId = [none] :=
  ⟨rfl, create_ok_of_group noCountryEnv "addr-1" (.user sampleUser) (by decide),
    rfl, rfl⟩

/-- **C4 (counterexample)** — a contact whose address-type is
`"Rechnungsanschrift"` alone nevertheless gets *both* default slots set to
the created address id: the claim that only the billing slot is set is
false. -/
theorem addresstype_billing_only_sets_both :
    sampleUser.adresstyp = "Rechnungsanschrift" ∧
    create_customer_generic sampleEnv "addr-1" (.user sampleUser) =
      .ok (createCustomerData sampleEnv "addr-1" (.user sampleUser)) ∧
    (createCustomerData sampleEnv "addr-1"
      (.user sampleUser)).defaultBillingAddressId = some "addr-1" ∧
    (createCustomerData sampleEnv "addr-1"
      (.user sampleUser)).defaultShippingAddressId = some "addr-1" :=
  ⟨rfl, create_ok_of_group sampleEnv "addr-1" (.user sampleUser) (by decide),
    rfl, rfl⟩

/-- **C4 (amended)** — the address-type string is never consulted: every
create payload sets both default billing and default shipping to the single
fresh address id, every update payload sets both to the existing default
billing id, and changing a contact's `adresstyp` changes neither payload. -/
theorem addresstype_never_consulted (env : ShopwareEnv) (aid t : String)
    (c : Contact) (e : ExistingCustomer) (p : CustomerData)
    (u : AdminPanelUser) (z : AdminPanelZrContact)
    (hc : create_customer_generic env aid c = .ok p) :
    p.defaultBillingAddressId = some aid ∧
    p.defaultShippingAddressId = some aid ∧
    (update_customer_generic env c e).defaultBillingAddressId =
      e.attrDefaultBillingAddressId ∧
    (update_customer_generic env c e).defaultShippingAddressId =
      e.attrDefaultBillingAddressId ∧
    createCustomerData env aid (.user { u with adresstyp := t }) =
      createCustomerData env aid (.user u) ∧
    createCustomerData env aid (.zr { z with adresstyp := t }) =
      createCustomerData env aid (.zr z) ∧
    update_customer_generic env (.user { u with adresstyp := t }) e =
      update_customer_generic env (.user u) e ∧
    update_customer_generic env (.zr { z with adresstyp := t }) e =
      update_customer_generic env (.zr z) e := by
  obtain rfl := create_ok_inv hc
  exact ⟨rfl, rfl, rfl, rfl, rfl, rfl, rfl, rfl⟩

/-- Witness for `addresstype_never_consulted`. -/
theorem addresstype_never_consulted_witness :
    (createCustomerData sampleEnv "addr-1"
      (.user sampleUser)).defaultBillingAddressId = some "addr-1" ∧
    (createCustomerData sampleEnv "addr-1"
      (.user sampleUser)).defaultShippingAddressId = some "addr-1" ∧
    (update_customer_generic sampleEnv (.user sampleUser)
      sampleExisting).defaultBillingAddressId =
      sampleExisting.attrDefaultBillingAddressId ∧
    (update_customer_generic sampleEnv (.user sampleUser)
      sampleExisting).defaultShippingAddressId =
      sampleExisting.attrDefaultBillingAddressId ∧
    createCustomerData sampleEnv "addr-1"
      (.user { sampleUser with adresstyp := "Lieferanschrift" }) =
      createCustomerData sampleEnv "addr-1" (.user sampleUser) ∧
    createCustomerData sampleEnv "addr-1"
      (.zr { sampleZr with adresstyp := "Lieferanschrift" }) =
      createCustomerData sampleEnv "addr-1" (.zr sampleZr) ∧
    update_customer_generic sampleEnv
      (.user { sampleUser with adresstyp := "Lieferanschrift" }) sampleExisting =
      update_customer_generic sampleEnv (.user sampleUser) sampleExisting ∧
    update_customer_generic sampleEnv
      (.zr { sampleZr with adresstyp := "Lieferanschrift" }) sampleExisting =
      update_customer_generic sampleEnv (.zr sampleZr) sampleExisting :=
  addresstype_never_consulted sampleEnv "addr-1" "Lieferanschrift"
    (.user sampleUser) sampleExisting _ sampleUser sampleZr
    (create_ok_of_group sampleEnv "addr-1" (.user sampleUser) (by decide))

/-- **C5 (counterexample)** — when the existing customer has no default
billing address id but does have a default shipping address id, the update
payload carries `null` address ids everywhere: there is no fallback to the
shipping id. -/
theorem update_no_shipping_fallback :
    sampleExistingNoBilling.attrDefaultBillingAddressId = none ∧
    sampleExistingNoBilling.attrDefaultShippingAddressId = some "ship-1" ∧
    (update_customer_generic sampleEnv (.user sampleUser)
      sampleExistingNoBilling).defaultBillingAddressId = none ∧
    (update_customer_generic sampleEnv (.user sampleUser)
      sampleExistingNoBilling).defaultShippingAddressId = none ∧
    (update_customer_generic sampleEnv (.user sampleUser)
      sampleExistingNoBilling).addresses.map Address.id = [none] ∧
    (update_customer_generic sampleEnv (.user sampleUser)
      sampleExistingNoBilling).defaultBillingAddressId ≠ some "ship-1" :=
  ⟨rfl, rfl, rfl, rfl, rfl, by decide⟩

/-- **C5 (amended)** — every update uses the existing default *billing*
address id (possibly `null`, with no fallback to the shipping id) for the
address block and both default-address references; no fresh address id is
minted on update. -/
theorem update_reuses_billing_id_only (env : ShopwareEnv) (c : Contact)
    (e : ExistingCustomer) :
    (update_customer_generic env c e).defaultBillingAddressId =
      e.attrDefaultBillingAddressId ∧
    (update_customer_generic env c e).defaultShippingAddressId =
      e.attrDefaultBillingAddressId ∧
    (update_customer_generic env c e).addresses.map Address.id =
      [e.attrDefaultBillingAddressId] :=
  ⟨rfl, rfl, rfl⟩

/-- **C6** — the consumer does apply further filtering beyond the
mandatory-field check: the leftover `# MOCK TODO - FLZ` filter drops every
record whose email is not `thomas.kauer@kauer.ch`, so `rawAnna` — a record
with all mandatory fields populated — is not returned. -/
theorem mock_filter_drops_valid_contact :
    hasMandatoryFields rawAnna = true ∧
    hasMandatoryFields rawThomas = true ∧
    (get_all_contacts [rawThomas, rawAnna]).map AdminPanelUser.eMailadresse =
      ["thomas.kauer@kauer.ch"] := by
  refine ⟨by decide, by decide, by decide⟩

/-- **C9** — for every organization contact, both the create payload (when
the create path does not raise) and the update payload carry the synthetic
email `zr<zrNummer>@einrichtungspartnerring.com` and `null` first/last
names, in the customer object and its address block. -/
theorem zr_synthetic_email_and_null_names (env : ShopwareEnv)
    (z : AdminPanelZrContact) (aid : String) (e : ExistingCustomer)
    (p : CustomerData)
    (hc : create_customer_generic env aid (.zr z) = .ok p) :
    p.email = some ("zr" ++ z.zrNummer ++ "@einrichtungspartnerring.com") ∧
    p.firstName = none ∧ p.lastName = none ∧
    (∀ a ∈ p.addresses, a.firstName = none ∧ a.lastName = none) ∧
    (update_customer_generic env (.zr z) e).email =
      some ("zr" ++ z.zrNummer ++ "@einrichtungspartnerring.com") ∧
    (update_customer_generic env (.zr z) e).firstName = none ∧
    (update_customer_generic env (.zr z) e).lastName = none ∧
    (∀ a ∈ (update_customer_generic env (.zr z) e).addresses,
      a.firstName = none ∧ a.lastName = none) := by
  obtain rfl := create_ok_inv hc
  refine ⟨rfl, rfl, rfl, ?_, rfl, rfl, rfl, ?_⟩ <;>
    simp [createCustomerData, update_customer_generic, payloadFirstName,
      payloadLastName]

/-- Witness for `zr_synthetic_email_and_null_names`. -/
theorem zr_synthetic_email_and_null_names_witness :
    (createCustomerData sampleEnv "addr-0" (.zr sampleZr)).email =
      some ("zr" ++ sampleZr.zrNummer ++ "@einrichtungspartnerring.com") ∧
    (createCustomerData sampleEnv "addr-0" (.zr sampleZr)).firstName = none ∧
    (createCustomerData sampleEnv "addr-0" (.zr sampleZr)).lastName = none ∧
    (∀ a ∈ (createCustomerData sampleEnv "addr-0" (.zr sampleZr)).addresses,
      a.firstName = none ∧ a.lastName = none) ∧
    (update_customer_generic sampleEnv (.zr sampleZr) sampleExisting).email =
      some ("zr" ++ sampleZr.zrNummer ++ "@einrichtungspartnerring.com") ∧
    (update_customer_generic sampleEnv (.zr sampleZr)
      sampleExisting).firstName = none ∧
    (update_customer_generic sampleEnv (.zr sampleZr)
      sampleExisting).lastName = none ∧
    (∀ a ∈ (update_customer_generic sampleEnv (.zr sampleZr)
      sampleExisting).addresses, a.firstName = none ∧ a.lastName = none) :=
  zr_synthetic_email_and_null_names sampleEnv sampleZr "addr-0"
    sampleExisting _
    (create_ok_of_group sampleEnv "addr-0" (.zr sampleZr) (by decide))

/-- **C10** — no update payload has a `customFields` key at all; the
external-identity custom field is written only by create payloads: set to
the contact's `entraID` for individuals and to `null` for ZR contacts. -/
theorem customFields_only_on_create :
    (∀ (env : ShopwareEnv) (c : Contact) (e : ExistingCustomer),
      (update_customer_generic env c e).customFields = none) ∧
    (∀ (env : ShopwareEnv) (aid : String) (u : AdminPanelUser)
        (p : CustomerData),
      create_customer_generic env aid (.user u) = .ok p →
      p.customFields = some (some u.entraID)) ∧
    (∀ (env : ShopwareEnv) (aid : String) (z : AdminPanelZrContact)
        (p : CustomerData),
      create_customer_generic env aid (.zr z) = .ok p →
      p.customFields = some none) := by
  refine ⟨fun env c e => rfl, fun env aid u p hc => ?_,
    fun env aid z p hc => ?_⟩ <;>
  · obtain rfl := create_ok_inv hc
    rfl

/-- Witness for `customFields_only_on_create`. -/
theorem customFields_only_on_create_witness :
    (update_customer_generic sampleEnv (.user sampleUser)
      sampleExisting).customFields = none ∧
    (createCustomerData sampleEnv "addr-0" (.user sampleUser)).customFields =
      some (some sampleUser.entraID) ∧
    (createCustomerData sampleEnv "addr-0" (.zr sampleZr)).customFields =
      some none :=
  ⟨customFields_only_on_create.1 sampleEnv (.user sampleUser) sampleExisting,
    customFields_only_on_create.2.1 sampleEnv "addr-0" sampleUser _
      (create_ok_of_group sampleEnv "addr-0" (.user sampleUser) (by decide)),
    customFields_only_on_create.2.2 sampleEnv "addr-0" sampleZr _
      (create_ok_of_group sampleEnv "addr-0" (.zr sampleZr) (by decide))⟩

theorem Counts.zero_add (c : Counts) : (Counts.mk 0 0 0).add c = c := by
  cases c; simp [Counts.add]

theorem Counts.add_assoc (a b c : Counts) :
    (a.add b).add c = a.add (b.add c) := by
  cases a; cases b; cases c; simp [Counts.add, Nat.add_assoc]

/-- The loop counters are accumulated record by record, so they are additive
over list concatenation. -/
theorem tally_append (f : α → Outcome) (xs ys : List α) :
    tally f (xs ++ ys) = (tally f xs).add (tally f ys) := by
  induction xs with
  | nil => simp [tally, Counts.zero_add]
  | cons x xs ih => simp [tally, ih, Counts.add_assoc]

/-- Each record contributes exactly one unit to exactly one counter. -/
theorem tally_sum (f : α → Outcome) (l : List α) :
    (tally f l).updated + (tally f l).created + (tally f l).failed =
      l.length := by
  induction l with
  | nil => rfl
  | cons x xs ih =>
    cases h : f x <;> simp [tally, h, Outcome.one, Counts.add] <;> omega

/-- **C1** — dispatch is by the shape-specific key: an individual is looked
up by `entraID`; a lookup hit leads to exactly one `update_customer` call
and no create, a miss to exactly one `create_customer` call and no update;
a ZR contact is looked up by `zrNummer`, with the same dispatch; and for ZR
contacts the dispatched write calls depend on `zrNummer` alone. -/
theorem match_dispatch_by_key :
    (∀ (cl : LoopClient) (u : AdminPanelUser) (ex : ExistingCustomer),
      cl.get_customer_by_custom_field_entraid u.entraID = .ok (some ex) →
      (processUser cl u).2 = [WriteCall.update]) ∧
    (∀ (cl : LoopClient) (u : AdminPanelUser),
      cl.get_customer_by_custom_field_entraid u.entraID = .ok none →
      (processUser cl u).2 = [WriteCall.create]) ∧
    (∀ (cl : LoopClient) (z : AdminPanelZrContact) (ex : ExistingCustomer),
      cl.get_customer_by_customer_number z.zrNummer = .ok (some ex) →
      (processZr cl z).2 = [WriteCall.update]) ∧
    (∀ (cl : LoopClient) (z : AdminPanelZrContact),
      cl.get_customer_by_customer_number z.zrNummer = .ok none →
      (processZr cl z).2 = [WriteCall.create]) ∧
    (∀ (cl : LoopClient) (z z' : AdminPanelZrContact),
      z.zrNummer = z'.zrNummer →
      (processZr cl z).2 = (processZr cl z').2) := by
  refine ⟨?_, ?_, ?_, ?_, ?_⟩
  · intro cl u ex h
    cases h2 : cl.update_customer u ex <;> simp [processUser, h, h2]
  · intro cl u h
    cases h2 : cl.create_customer u <;> simp [processUser, h, h2]
  · intro cl z ex h
    cases h2 : cl.update_zr_customer z ex <;> simp [processZr, h, h2]
  · intro cl z h
    cases h2 : cl.create_zr_customer z <;> simp [processZr, h, h2]
  · intro cl z z' hz
    cases h : cl.get_customer_by_customer_number z'.zrNummer with
    | error e => simp [processZr, hz, h]
    | ok o =>
      cases o with
      | none =>
        cases h2 : cl.create_zr_customer z <;>
          cases h3 : cl.create_zr_customer z' <;>
          simp [processZr, hz, h, h2, h3]
      | some ex =>
        cases h2 : cl.update_zr_customer z ex <;>
          cases h3 : cl.update_zr_customer z' ex <;>
          simp [processZr, hz, h, h2, h3]

/-- Witness for `match_dispatch_by_key`. -/
theorem match_dispatch_by_key_witness :
    (processUser clFound sampleUser).2 = [WriteCall.update] ∧
    (processUser clNotFound sampleUser).2 = [WriteCall.create] ∧
    (processZr clFound sampleZr).2 = [WriteCall.update] ∧
    (processZr clNotFound sampleZr).2 = [WriteCall.create] ∧
    (processZr clFound sampleZr).2 =
      (processZr clFound { sampleZr with firma := "Other" }).2 :=
  ⟨match_dispatch_by_key.1 clFound sampleUser sampleExisting rfl,
    match_dispatch_by_key.2.1 clNotFound sampleUser rfl,
    match_dispatch_by_key.2.2.1 clFound sampleZr sampleExisting rfl,
    match_dispatch_by_key.2.2.2.1 clNotFound sampleZr rfl,
    match_dispatch_by_key.2.2.2.2 clFound sampleZr
      { sampleZr with firma := "Other" } rfl⟩

/-- **C7** — per-record failure isolation: the loop counters are additive
over concatenation (a record's outcome never affects other records'
contributions), a record is tallied `failed` exactly when its own iteration
raised (so exceptions are absorbed, never propagated), and each pass's
result depends only on its own list. -/
theorem per_record_failure_isolated :
    (∀ (cl : LoopClient) (xs ys : List AdminPanelUser),
      usersTally cl (xs ++ ys) = (usersTally cl xs).add (usersTally cl ys)) ∧
    (∀ (cl : LoopClient) (xs ys : List AdminPanelZrContact),
      zrTally cl (xs ++ ys) = (zrTally cl xs).add (zrTally cl ys)) ∧
    (∀ (cl : LoopClient) (u : AdminPanelUser),
      (processUser cl u).1 = .failed ↔ userStepRaised cl u = true) ∧
    (∀ (cl : LoopClient) (z : AdminPanelZrContact),
      (processZr cl z).1 = .failed ↔ zrStepRaised cl z = true) ∧
    (∀ (cl : LoopClient) (users users' : List AdminPanelUser)
        (zrs : List AdminPanelZrContact),
      (run_sync_loops cl users zrs).2 = (run_sync_loops cl users' zrs).2) ∧
    (∀ (cl : LoopClient) (users : List AdminPanelUser)
        (zrs zrs' : List AdminPanelZrContact),
      (run_sync_loops cl users zrs).1 = (run_sync_loops cl users zrs').1) := by
  refine ⟨fun cl xs ys => tally_append _ xs ys,
    fun cl xs ys => tally_append _ xs ys, ?_, ?_,
    fun cl users users' zrs => rfl, fun cl users zrs zrs' => rfl⟩
  · intro cl u
    cases h : cl.get_customer_by_custom_field_entraid u.entraID with
    | error e => simp [processUser, userStepRaised, h]
    | ok o =>
      cases o with
      | none =>
        cases h2 : cl.create_customer u <;>
          simp [processUser, userStepRaised, h, h2]
      | some ex =>
        cases h2 : cl.update_customer u ex <;>
          simp [processUser, userStepRaised, h, h2]
  · intro cl z
    cases h : cl.get_customer_by_customer_number z.zrNummer with
    | error e => simp [processZr, zrStepRaised, h]
    | ok o =>
      cases o with
      | none =>
        cases h2 : cl.create_zr_customer z <;>
          simp [processZr, zrStepRaised, h, h2]
      | some ex =>
        cases h2 : cl.update_zr_customer z ex <;>
          simp [processZr, zrStepRaised, h, h2]

/-- **C8** — each pass returns the 3-tuple
`(total, updated, created)` with `total` the number of fetched records;
every record is tallied into exactly one of updated/created/failed, so
`updated + created + failed = total`; the failed counter is not part of the
returned tuple, so `updated + created` can fall short of `total`. -/
theorem result_tuple_counts :
    ∀ (cl : LoopClient) (users : List AdminPanelUser)
      (zrs : List AdminPanelZrContact),
    sync_users cl users = (users.length, (usersTally cl users).updated,
      (usersTally cl users).created) ∧
    (usersTally cl users).updated + (usersTally cl users).created +
      (usersTally cl users).failed = users.length ∧
    (usersTally cl users).updated + (usersTally cl users).created ≤
      users.length ∧
    sync_zr_customers cl zrs = (zrs.length, (zrTally cl zrs).updated,
      (zrTally cl zrs).created) ∧
    (zrTally cl zrs).updated + (zrTally cl zrs).created +
      (zrTally cl zrs).failed = zrs.length ∧
    (zrTally cl zrs).updated + (zrTally cl zrs).created ≤ zrs.length := by
  intro cl users zrs
  have h1 := tally_sum (fun u => (processUser cl u).1) users
  have h2 := tally_sum (fun z => (processZr cl z).1) zrs
  refine ⟨rfl, ?_, ?_, rfl, ?_, ?_⟩ <;> simp only [usersTally, zrTally] <;>
    omega

/-! ## Idempotence analysis (C3) -/

/-- **C3 (counterexample)** — empty destination, one individual contact:
the second run is indeed all updates, but the final destination field
values are *not* identical to those after the first run: under the
full-overwrite semantics the second run's update payload omits
`customFields` and therefore clears the stored external-identity custom
field (`some "eid-1"` after run 1, `null` after run 2). -/
theorem second_run_clears_entraid_custom_field :
    c3run2.2.1.created = 0 ∧ c3run2.2.1.updated = 1 ∧
    (c3run1.1.dest.map fun c => c.fields.customFields) =
      [some (some "eid-1")] ∧
    (c3run2.1.dest.map fun c => c.fields.customFields) = [some none] ∧
    c3run2.1.dest ≠ c3run1.1.dest := by decide

theorem mkCust_custId (env : ShopwareEnv) (fc fa : Nat → String) (k : Nat)
    (c : Contact) : (mkCust env fc fa k c).custId = fc k := rfl

theorem mkCust_user_customFields (env : ShopwareEnv) (fc fa : Nat → String)
    (k : Nat) (u : AdminPanelUser) :
    (mkCust env fc fa k (.user u)).fields.customFields =
      some (some u.entraID) := rfl

theorem mkCust_zr_customFields (env : ShopwareEnv) (fc fa : Nat → String)
    (k : Nat) (z : AdminPanelZrContact) :
    (mkCust env fc fa k (.zr z)).fields.customFields = some none := rfl

theorem mkCust_customerNumber (env : ShopwareEnv) (fc fa : Nat → String)
    (k : Nat) (c : Contact) :
    (mkCust env fc fa k c).fields.customerNumber = c.zrNummer := rfl

/-- A full-overwrite write of the update payload built against a
just-created customer stores exactly the created field values with the
external-identity custom field cleared. -/
theorem update_of_created_clears_customFields (env : ShopwareEnv)
    (fc fa : Nat → String) (k : Nat) (c : Contact) :
    (⟨fc k, applyOverwrite (update_customer_generic env c
        (toExisting (mkCust env fc fa k c)))⟩ : DestCustomer) =
      clearCF (mkCust env fc fa k c) := rfl

/-- For a ZR contact, a run-2 overwrite leaves the stored record literally
unchanged (its custom field was already null). -/
theorem clearCF_mkCust_zr (env : ShopwareEnv) (fc fa : Nat → String)
    (k : Nat) (z : AdminPanelZrContact) :
    clearCF (mkCust env fc fa k (.zr z)) = mkCust env fc fa k (.zr z) := rfl

theorem clearCF_eq_self {c : DestCustomer}
    (h : c.fields.customFields = some none) : clearCF c = c := by
  unfold clearCF
  rw [← h]

theorem mem_mkUserCusts (env : ShopwareEnv) (fc fa : Nat → String) :
    ∀ {us : List AdminPanelUser} {k : Nat} {c : DestCustomer},
      c ∈ mkUserCusts env fc fa k us →
      ∃ j u, j < us.length ∧ u ∈ us ∧ c = mkCust env fc fa (k + j) (.user u) := by
  intro us
  induction us with
  | nil => intro k c h; simp [mkUserCusts] at h
  | cons u us ih =>
    intro k c h
    simp only [mkUserCusts, List.mem_cons] at h
    rcases h with h | h
    · exact ⟨0, u, by simp, List.mem_cons_self u us, by simpa using h⟩
    · obtain ⟨j, u', hj, hu', hc⟩ := ih h
      refine ⟨j + 1, u', by simpa using Nat.succ_lt_succ hj,
        List.mem_cons_of_mem u hu', ?_⟩
      rw [hc]
      congr 1
      omega

theorem mem_mkZrCusts (env : ShopwareEnv) (fc fa : Nat → String) :
    ∀ {zs : List AdminPanelZrContact} {k : Nat} {c : DestCustomer},
      c ∈ mkZrCusts env fc fa k zs →
      ∃ j z, j < zs.length ∧ z ∈ zs ∧ c = mkCust env fc fa (k + j) (.zr z) := by
  intro zs
  induction zs with
  | nil => intro k c h; simp [mkZrCusts] at h
  | cons z zs ih =>
    intro k c h
    simp only [mkZrCusts, List.mem_cons] at h
    rcases h with h | h
    · exact ⟨0, z, by simp, List.mem_cons_self z zs, by simpa using h⟩
    · obtain ⟨j, z', hj, hz', hc⟩ := ih h
      refine ⟨j + 1, z', by simpa using Nat.succ_lt_succ hj,
        List.mem_cons_of_mem z hz', ?_⟩
      rw [hc]
      congr 1
      omega

theorem findByEntraid_eq_none {d : List DestCustomer} {eid : String}
    (h : ∀ c ∈ d, c.fields.customFields ≠ some (some eid)) :
    findByEntraid d eid = none := by
  simp only [findByEntraid, List.find?_eq_none]
  intro c hc
  simpa using h c hc

theorem findByCustomerNumber_eq_none {d : List DestCustomer} {n : String}
    (h : ∀ c ∈ d, c.fields.customerNumber ≠ n) :
    findByCustomerNumber d n = none := by
  simp only [findByCustomerNumber, List.find?_eq_none]
  intro c hc
  simpa using h c hc

theorem findByEntraid_append (d₁ d₂ : List DestCustomer) (eid : String) :
    findByEntraid (d₁ ++ d₂) eid =
      (findByEntraid d₁ eid).or (findByEntraid d₂ eid) := by
  simp [findByEntraid, List.find?_append]

theorem findByCustomerNumber_append (d₁ d₂ : List DestCustomer) (n : String) :
    findByCustomerNumber (d₁ ++ d₂) n =
      (findByCustomerNumber d₁ n).or (findByCustomerNumber d₂ n) := by
  simp [findByCustomerNumber, List.find?_append]

theorem stepUser_create (env : ShopwareEnv) (fc fa : Nat → String)
    (s : RunState) (u : AdminPanelUser)
    (hfind : findByEntraid s.dest u.entraID = none)
    (hg : pyTruthy (env.getCustomerGroupId "User-Kunden") = true) :
    stepUser env fc fa s u =
      (⟨s.dest ++ [mkCust env fc fa s.k (.user u)], s.k + 1⟩, .created) := by
  have hok := create_ok_of_group env (fa s.k) (.user u) hg
  simp [stepUser, hfind, hok, destCreate, mkCust]

theorem stepZr_create (env : ShopwareEnv) (fc fa : Nat → String)
    (s : RunState) (z : AdminPanelZrContact)
    (hfind : findByCustomerNumber s.dest z.zrNummer = none)
    (hg : pyTruthy (env.getCustomerGroupId "ZR-Kunden") = true) :
    stepZr env fc fa s z =
      (⟨s.dest ++ [mkCust env fc fa s.k (.zr z)], s.k + 1⟩, .created) := by
  have hok := create_ok_of_group env (fa s.k) (.zr z) hg
  simp [stepZr, hfind, hok, destCreate, mkCust]

theorem stepUser_update (env : ShopwareEnv) (fc fa : Nat → String)
    (s : RunState) (u : AdminPanelUser) (ec : DestCustomer)
    (hfind : findByEntraid s.dest u.entraID = some ec) :
    stepUser env fc fa s u =
      (⟨destUpdate s.dest ec.custId
          (update_customer_generic env (.user u) (toExisting ec)), s.k⟩,
        .updated) := by
  simp [stepUser, hfind]

theorem stepZr_update (env : ShopwareEnv) (fc fa : Nat → String)
    (s : RunState) (z : AdminPanelZrContact) (ec : DestCustomer)
    (hfind : findByCustomerNumber s.dest z.zrNummer = some ec) :
    stepZr env fc fa s z =
      (⟨destUpdate s.dest ec.custId
          (update_customer_generic env (.zr z) (toExisting ec)), s.k⟩,
        .updated) := by
  simp [stepZr, hfind]

theorem destUpdate_append (d₁ d₂ : List DestCustomer) (cid : String)
    (p : CustomerData) :
    destUpdate (d₁ ++ d₂) cid p = destUpdate d₁ cid p ++ destUpdate d₂ cid p := by
  simp [destUpdate]

theorem destUpdate_cons (c : DestCustomer) (d : List DestCustomer)
    (cid : String) (p : CustomerData) :
    destUpdate (c :: d) cid p =
      (if c.custId = cid then ⟨c.custId, applyOverwrite p⟩ else c) ::
        destUpdate d cid p := rfl

theorem clearCF_custId (c : DestCustomer) : (clearCF c).custId = c.custId :=
  rfl

theorem destUpdate_eq_self {d : List DestCustomer} {cid : String}
    {p : CustomerData} (h : ∀ c ∈ d, c.custId ≠ cid) :
    destUpdate d cid p = d := by
  induction d with
  | nil => rfl
  | cons c d ih =>
    have hc : c.custId ≠ cid := h c (List.mem_cons_self c d)
    simp only [destUpdate, List.map_cons, if_neg hc]
    have := ih (fun c' hc' => h c' (List.mem_cons_of_mem c hc'))
    simpa [destUpdate] using this

/-- Run-1 user pass: from a state in which no user matches, every record is
created, appending the created customers in order. -/
theorem runPassU_all_create (env : ShopwareEnv) (fc fa : Nat → String)
    (hg : pyTruthy (env.getCustomerGroupId "User-Kunden") = true) :
    ∀ (us : List AdminPanelUser) (s : RunState),
      (∀ u ∈ us, findByEntraid s.dest u.entraID = none) →
      us.Pairwise (fun a b => a.entraID ≠ b.entraID) →
      runPassU env fc fa s us =
        (⟨s.dest ++ mkUserCusts env fc fa s.k us, s.k + us.length⟩,
          ⟨0, us.length, 0⟩) := by
  intro us
  induction us with
  | nil => intro s h hp; simp [runPassU, mkUserCusts]
  | cons u us ih =>
    intro s h hp
    obtain ⟨hp1, hp2⟩ := List.pairwise_cons.mp hp
    have hfind : findByEntraid s.dest u.entraID = none :=
      h u (List.mem_cons_self u us)
    have hstep := stepUser_create env fc fa s u hfind hg
    have hpre : ∀ u' ∈ us,
        findByEntraid (s.dest ++ [mkCust env fc fa s.k (.user u)])
          u'.entraID = none := by
      intro u' hu'
      rw [findByEntraid_append, h u' (List.mem_cons_of_mem u hu')]
      have hne : (mkCust env fc fa s.k (.user u)).fields.customFields ≠
          some (some u'.entraID) := by
        rw [mkCust_user_customFields]
        simpa using hp1 u' hu'
      rw [findByEntraid_eq_none (by simpa using hne)]
      rfl
    have hrec := ih ⟨s.dest ++ [mkCust env fc fa s.k (.user u)], s.k + 1⟩
      hpre hp2
    simp only [runPassU, hstep, hrec, mkUserCusts]
    simp [Prod.mk.injEq, RunState.mk.injEq, Counts.mk.injEq, Counts.add,
      Outcome.one, List.append_assoc]
    omega

/-- Run-1 ZR pass: from a state in which no ZR contact matches, every record
is created. -/
theorem runPassZ_all_create (env : ShopwareEnv) (fc fa : Nat → String)
    (hg : pyTruthy (env.getCustomerGroupId "ZR-Kunden") = true) :
    ∀ (zs : List AdminPanelZrContact) (s : RunState),
      (∀ z ∈ zs, findByCustomerNumber s.dest z.zrNummer = none) →
      zs.Pairwise (fun a b => a.zrNummer ≠ b.zrNummer) →
      runPassZ env fc fa s zs =
        (⟨s.dest ++ mkZrCusts env fc fa s.k zs, s.k + zs.length⟩,
          ⟨0, zs.length, 0⟩) := by
  intro zs
  induction zs with
  | nil => intro s h hp; simp [runPassZ, mkZrCusts]
  | cons z zs ih =>
    intro s h hp
    obtain ⟨hp1, hp2⟩ := List.pairwise_cons.mp hp
    have hfind : findByCustomerNumber s.dest z.zrNummer = none :=
      h z (List.mem_cons_self z zs)
    have hstep := stepZr_create env fc fa s z hfind hg
    have hpre : ∀ z' ∈ zs,
        findByCustomerNumber (s.dest ++ [mkCust env fc fa s.k (.zr z)])
          z'.zrNummer = none := by
      intro z' hz'
      rw [findByCustomerNumber_append, h z' (List.mem_cons_of_mem z hz')]
      have hne : (mkCust env fc fa s.k (.zr z)).fields.customerNumber ≠
          z'.zrNummer := by
        rw [mkCust_customerNumber]
        simpa using hp1 z' hz'
      rw [findByCustomerNumber_eq_none (by simpa using hne)]
      rfl
    have hrec := ih ⟨s.dest ++ [mkCust env fc fa s.k (.zr z)], s.k + 1⟩
      hpre hp2
    simp only [runPassZ, hstep, hrec, mkZrCusts]
    simp [Prod.mk.injEq, RunState.mk.injEq, Counts.mk.injEq, Counts.add,
      Outcome.one, List.append_assoc]
    omega

/-- Run-2 user pass: over a destination consisting of
already-cleared customers `D`, the customers created for exactly these
users, and ZR customers `Z` (whose custom field is null), every user is
found and updated in place; the update clears each user customer's custom
field and changes nothing else. -/
theorem runPassU_all_update (env : ShopwareEnv) (fc fa : Nat → String)
    (hfc : Function.Injective fc) :
    ∀ (us : List AdminPanelUser) (k0 : Nat) (D Z : List DestCustomer)
      (k1 : Nat),
      (∀ c ∈ D, c.fields.customFields = some none) →
      (∀ c ∈ Z, c.fields.customFields = some none) →
      (∀ c ∈ D ++ Z, ∀ i, i < us.length → c.custId ≠ fc (k0 + i)) →
      us.Pairwise (fun a b => a.entraID ≠ b.entraID) →
      runPassU env fc fa ⟨D ++ mkUserCusts env fc fa k0 us ++ Z, k1⟩ us =
        (⟨D ++ (mkUserCusts env fc fa k0 us).map clearCF ++ Z, k1⟩,
          ⟨us.length, 0, 0⟩) := by
  intro us
  induction us with
  | nil =>
    intro k0 D Z k1 hD hZ hIds hp
    simp [runPassU, mkUserCusts]
  | cons u us ih =>
    intro k0 D Z k1 hD hZ hIds hp
    obtain ⟨hp1, hp2⟩ := List.pairwise_cons.mp hp
    have hcons : mkUserCusts env fc fa k0 (u :: us) =
        mkCust env fc fa k0 (.user u) :: mkUserCusts env fc fa (k0 + 1) us :=
      rfl
    -- the lookup finds exactly the customer created for `u`
    have hpx : ((mkCust env fc fa k0 (.user u)).fields.customFields ==
        some (some u.entraID)) = true := by
      rw [mkCust_user_customFields]
      simp
    have hfind : findByEntraid
        (D ++ mkUserCusts env fc fa k0 (u :: us) ++ Z) u.entraID =
        some (mkCust env fc fa k0 (.user u)) := by
      have hDn : findByEntraid D u.entraID = none :=
        findByEntraid_eq_none (fun c hc => by simp [hD c hc])
      have hMid : findByEntraid (mkUserCusts env fc fa k0 (u :: us))
          u.entraID = some (mkCust env fc fa k0 (.user u)) := by
        rw [hcons]
        unfold findByEntraid
        exact List.find?_cons_of_pos _ hpx
      rw [findByEntraid_append, findByEntraid_append, hDn, hMid]
      rfl
    have hstep := stepUser_update env fc fa
      ⟨D ++ mkUserCusts env fc fa k0 (u :: us) ++ Z, k1⟩ u
      (mkCust env fc fa k0 (.user u)) hfind
    -- the patch rewrites exactly that customer
    have hDskip : destUpdate D (fc k0) (update_customer_generic env (.user u)
        (toExisting (mkCust env fc fa k0 (.user u)))) = D :=
      destUpdate_eq_self (fun c hc => by
        simpa using hIds c (List.mem_append_left Z hc) 0 (by simp))
    have hZskip : destUpdate Z (fc k0) (update_customer_generic env (.user u)
        (toExisting (mkCust env fc fa k0 (.user u)))) = Z :=
      destUpdate_eq_self (fun c hc => by
        simpa using hIds c (List.mem_append_right D hc) 0 (by simp))
    have hRest : ∀ c ∈ mkUserCusts env fc fa (k0 + 1) us,
        c.custId ≠ fc k0 := by
      intro c hc
      obtain ⟨j, u', hj, hu', rfl⟩ := mem_mkUserCusts env fc fa hc
      rw [mkCust_custId]
      intro hEq
      have := hfc hEq
      omega
    have hupd : destUpdate (D ++ mkUserCusts env fc fa k0 (u :: us) ++ Z)
        (mkCust env fc fa k0 (.user u)).custId
        (update_customer_generic env (.user u)
          (toExisting (mkCust env fc fa k0 (.user u)))) =
        D ++ (clearCF (mkCust env fc fa k0 (.user u)) ::
          mkUserCusts env fc fa (k0 + 1) us) ++ Z := by
      rw [mkCust_custId, hcons, destUpdate_append, destUpdate_append,
        hDskip, hZskip]
      have hmid : destUpdate (mkCust env fc fa k0 (.user u) ::
          mkUserCusts env fc fa (k0 + 1) us) (fc k0)
          (update_customer_generic env (.user u)
            (toExisting (mkCust env fc fa k0 (.user u)))) =
          clearCF (mkCust env fc fa k0 (.user u)) ::
            mkUserCusts env fc fa (k0 + 1) us := by
        rw [destUpdate_cons, if_pos (mkCust_custId env fc fa k0 (.user u)),
          destUpdate_eq_self hRest, mkCust_custId,
          update_of_created_clears_customFields env fc fa k0 (.user u)]
      rw [hmid]
    -- the induction hypothesis applies to the remaining users
    have hD' : ∀ c ∈ D ++ [clearCF (mkCust env fc fa k0 (.user u))],
        c.fields.customFields = some none := by
      intro c hc
      rcases List.mem_append.mp hc with hc | hc
      · exact hD c hc
      · rw [List.mem_singleton.mp hc]
        rfl
    have hIds' : ∀ c ∈ (D ++ [clearCF (mkCust env fc fa k0 (.user u))]) ++ Z,
        ∀ i, i < us.length → c.custId ≠ fc ((k0 + 1) + i) := by
      intro c hc i hi
      have hlt : i + 1 < (u :: us).length := by
        simp only [List.length_cons]
        omega
      have harith : k0 + (i + 1) = k0 + 1 + i := by omega
      rcases List.mem_append.mp hc with hc | hc
      · rcases List.mem_append.mp hc with hc | hc
        · have h9 := hIds c (List.mem_append_left Z hc) (i + 1) hlt
          simpa [harith] using h9
        · rw [List.mem_singleton.mp hc, clearCF_custId, mkCust_custId]
          intro hEq
          have := hfc hEq
          omega
      · have h9 := hIds c (List.mem_append_right D hc) (i + 1) hlt
        simpa [harith] using h9
    have hrec := ih (k0 + 1) (D ++ [clearCF (mkCust env fc fa k0 (.user u))])
      Z k1 hD' hZ hIds' hp2
    have hshape : D ++ (clearCF (mkCust env fc fa k0 (.user u)) ::
        mkUserCusts env fc fa (k0 + 1) us) ++ Z =
        (D ++ [clearCF (mkCust env fc fa k0 (.user u))]) ++
          mkUserCusts env fc fa (k0 + 1) us ++ Z := by
      simp [List.append_assoc]
    simp only [runPassU]
    rw [hstep]
    dsimp only
    rw [hupd, hshape, hrec]
    simp [hcons, Prod.mk.injEq, RunState.mk.injEq, Counts.mk.injEq,
      Counts.add, Outcome.one, List.append_assoc, Nat.add_comm]

/-- Run-2 ZR pass: over a destination consisting of cleared user customers
`D`, the ZR customers created for exactly these contacts, and a suffix `Z`,
every ZR contact is found and updated in place, and the overwrite leaves
every stored record unchanged. -/
theorem runPassZ_all_update (env : ShopwareEnv) (fc fa : Nat → String)
    (hfc : Function.Injective fc) :
    ∀ (zs : List AdminPanelZrContact) (k0 : Nat) (D Z : List DestCustomer)
      (k1 : Nat),
      (∀ c ∈ D, ∀ z ∈ zs, c.fields.customerNumber ≠ z.zrNummer) →
      (∀ c ∈ Z, ∀ z ∈ zs, c.fields.customerNumber ≠ z.zrNummer) →
      (∀ c ∈ D ++ Z, ∀ i, i < zs.length → c.custId ≠ fc (k0 + i)) →
      zs.Pairwise (fun a b => a.zrNummer ≠ b.zrNummer) →
      runPassZ env fc fa ⟨D ++ mkZrCusts env fc fa k0 zs ++ Z, k1⟩ zs =
        (⟨D ++ mkZrCusts env fc fa k0 zs ++ Z, k1⟩, ⟨zs.length, 0, 0⟩) := by
  intro zs
  induction zs with
  | nil =>
    intro k0 D Z k1 hD hZ hIds hp
    simp [runPassZ, mkZrCusts]
  | cons z zs ih =>
    intro k0 D Z k1 hD hZ hIds hp
    obtain ⟨hp1, hp2⟩ := List.pairwise_cons.mp hp
    have hcons : mkZrCusts env fc fa k0 (z :: zs) =
        mkCust env fc fa k0 (.zr z) :: mkZrCusts env fc fa (k0 + 1) zs := rfl
    have hpx : ((mkCust env fc fa k0 (.zr z)).fields.customerNumber ==
        z.zrNummer) = true := by
      rw [mkCust_customerNumber]
      simp [Contact.zrNummer]
    have hfind : findByCustomerNumber
        (D ++ mkZrCusts env fc fa k0 (z :: zs) ++ Z) z.zrNummer =
        some (mkCust env fc fa k0 (.zr z)) := by
      have hDn : findByCustomerNumber D z.zrNummer = none :=
        findByCustomerNumber_eq_none
          (fun c hc => hD c hc z (List.mem_cons_self z zs))
      have hMid : findByCustomerNumber (mkZrCusts env fc fa k0 (z :: zs))
          z.zrNummer = some (mkCust env fc fa k0 (.zr z)) := by
        rw [hcons]
        unfold findByCustomerNumber
        exact List.find?_cons_of_pos _ hpx
      rw [findByCustomerNumber_append, findByCustomerNumber_append, hDn, hMid]
      rfl
    have hstep := stepZr_update env fc fa
      ⟨D ++ mkZrCusts env fc fa k0 (z :: zs) ++ Z, k1⟩ z
      (mkCust env fc fa k0 (.zr z)) hfind
    have hDskip : destUpdate D (fc k0) (update_customer_generic env (.zr z)
        (toExisting (mkCust env fc fa k0 (.zr z)))) = D :=
      destUpdate_eq_self (fun c hc => by
        simpa using hIds c (List.mem_append_left Z hc) 0 (by simp))
    have hZskip : destUpdate Z (fc k0) (update_customer_generic env (.zr z)
        (toExisting (mkCust env fc fa k0 (.zr z)))) = Z :=
      destUpdate_eq_self (fun c hc => by
        simpa using hIds c (List.mem_append_right D hc) 0 (by simp))
    have hRest : ∀ c ∈ mkZrCusts env fc fa (k0 + 1) zs,
        c.custId ≠ fc k0 := by
      intro c hc
      obtain ⟨j, z', hj, hz', rfl⟩ := mem_mkZrCusts env fc fa hc
      rw [mkCust_custId]
      intro hEq
      have := hfc hEq
      omega
    have hupd : destUpdate (D ++ mkZrCusts env fc fa k0 (z :: zs) ++ Z)
        (mkCust env fc fa k0 (.zr z)).custId
        (update_customer_generic env (.zr z)
          (toExisting (mkCust env fc fa k0 (.zr z)))) =
        D ++ mkZrCusts env fc fa k0 (z :: zs) ++ Z := by
      rw [mkCust_custId, hcons, destUpdate_append, destUpdate_append,
        hDskip, hZskip]
      have hmid : destUpdate (mkCust env fc fa k0 (.zr z) ::
          mkZrCusts env fc fa (k0 + 1) zs) (fc k0)
          (update_customer_generic env (.zr z)
            (toExisting (mkCust env fc fa k0 (.zr z)))) =
          mkCust env fc fa k0 (.zr z) :: mkZrCusts env fc fa (k0 + 1) zs := by
        rw [destUpdate_cons, if_pos (mkCust_custId env fc fa k0 (.zr z)),
          destUpdate_eq_self hRest, mkCust_custId,
          update_of_created_clears_customFields env fc fa k0 (.zr z),
          clearCF_mkCust_zr env fc fa k0 z]
      rw [hmid]
    have hD' : ∀ c ∈ D ++ [mkCust env fc fa k0 (.zr z)],
        ∀ z' ∈ zs, c.fields.customerNumber ≠ z'.zrNummer := by
      intro c hc z' hz'
      rcases List.mem_append.mp hc with hc | hc
      · exact hD c hc z' (List.mem_cons_of_mem z hz')
      · rw [List.mem_singleton.mp hc, mkCust_customerNumber]
        simpa [Contact.zrNummer] using hp1 z' hz'
    have hZ' : ∀ c ∈ Z, ∀ z' ∈ zs, c.fields.customerNumber ≠ z'.zrNummer :=
      fun c hc z' hz' => hZ c hc z' (List.mem_cons_of_mem z hz')
    have hIds' : ∀ c ∈ (D ++ [mkCust env fc fa k0 (.zr z)]) ++ Z,
        ∀ i, i < zs.length → c.custId ≠ fc ((k0 + 1) + i) := by
      intro c hc i hi
      have hlt : i + 1 < (z :: zs).length := by
        simp only [List.length_cons]
        omega
      have harith : k0 + (i + 1) = k0 + 1 + i := by omega
      rcases List.mem_append.mp hc with hc | hc
      · rcases List.mem_append.mp hc with hc | hc
        · have h9 := hIds c (List.mem_append_left Z hc) (i + 1) hlt
          simpa [harith] using h9
        · rw [List.mem_singleton.mp hc, mkCust_custId]
          intro hEq
          have := hfc hEq
          omega
      · have h9 := hIds c (List.mem_append_right D hc) (i + 1) hlt
        simpa [harith] using h9
    have hrec := ih (k0 + 1) (D ++ [mkCust env fc fa k0 (.zr z)]) Z k1
      hD' hZ' hIds' hp2
    have hshape : D ++ mkZrCusts env fc fa k0 (z :: zs) ++ Z =
        (D ++ [mkCust env fc fa k0 (.zr z)]) ++
          mkZrCusts env fc fa (k0 + 1) zs ++ Z := by
      rw [hcons]
      simp [List.append_assoc]
    simp only [runPassZ]
    rw [hstep]
    dsimp only
    rw [hupd, hshape, hrec, ← hshape]
    simp [Prod.mk.injEq, RunState.mk.injEq, Counts.mk.injEq, Counts.add,
      Outcome.one, Nat.add_comm]

theorem clearCF_customerNumber (c : DestCustomer) :
    (clearCF c).fields.customerNumber = c.fields.customerNumber := rfl

theorem mkZrCusts_customFields (env : ShopwareEnv) (fc fa : Nat → String)
    {k : Nat} {zs : List AdminPanelZrContact} :
    ∀ c ∈ mkZrCusts env fc fa k zs, c.fields.customFields = some none := by
  intro c hc
  obtain ⟨j, z', hj, hz', rfl⟩ := mem_mkZrCusts env fc fa hc
  exact mkCust_zr_customFields env fc fa (k + j) z'

theorem map_clearCF_mkZrCusts (env : ShopwareEnv) (fc fa : Nat → String) :
    ∀ (k : Nat) (zs : List AdminPanelZrContact),
      (mkZrCusts env fc fa k zs).map clearCF = mkZrCusts env fc fa k zs := by
  intro k zs
  induction zs generalizing k with
  | nil => rfl
  | cons z zs ih => simp [mkZrCusts, clearCF_mkCust_zr, ih]

/-- **C3 (amended)** — starting from an empty destination, with distinct
match keys, user/ZR customer numbers disjoint, resolvable customer groups
and an injective id supply: the second of two identical runs consists
entirely of updates (zero creates, zero failures) in both passes, and the
final destination equals the state after the first run with every
customer's external-identity custom field cleared (ZR customers, whose
custom field is already null, are therefore bitwise unchanged; individual
customers lose their stored `entraID`). -/
theorem second_run_all_updates_but_clears_custom_field
    (env : ShopwareEnv) (fc fa : Nat → String)
    (users : List AdminPanelUser) (zrs : List AdminPanelZrContact)
    (hfc : Function.Injective fc)
    (hg1 : pyTruthy (env.getCustomerGroupId "User-Kunden") = true)
    (hg2 : pyTruthy (env.getCustomerGroupId "ZR-Kunden") = true)
    (hU : users.Pairwise (fun a b => a.entraID ≠ b.entraID))
    (hZp : zrs.Pairwise (fun a b => a.zrNummer ≠ b.zrNummer))
    (hUZ : ∀ u ∈ users, ∀ z ∈ zrs, u.zrNummer ≠ z.zrNummer) :
    (runSync env fc fa (runSync env fc fa ⟨[], 0⟩ users zrs).1 users zrs).2.1 =
      ⟨users.length, 0, 0⟩ ∧
    (runSync env fc fa (runSync env fc fa ⟨[], 0⟩ users zrs).1 users zrs).2.2 =
      ⟨zrs.length, 0, 0⟩ ∧
    (runSync env fc fa (runSync env fc fa ⟨[], 0⟩ users zrs).1 users
        zrs).1.dest =
      (runSync env fc fa ⟨[], 0⟩ users zrs).1.dest.map clearCF := by
  -- run 1: user pass creates everything
  have hP1U := runPassU_all_create env fc fa hg1 users ⟨[], 0⟩
    (fun u _ => rfl) hU
  -- run 1: ZR pass creates everything (user customers never match a ZR
  -- customer number, by disjointness)
  have hZpre : ∀ z ∈ zrs, findByCustomerNumber
      (([] : List DestCustomer) ++ mkUserCusts env fc fa 0 users)
      z.zrNummer = none := by
    intro z hz
    refine findByCustomerNumber_eq_none ?_
    intro c hc
    have hc' : c ∈ mkUserCusts env fc fa 0 users := by simpa using hc
    obtain ⟨j, u', hj, hu', rfl⟩ := mem_mkUserCusts env fc fa hc'
    rw [mkCust_customerNumber]
    simpa [Contact.zrNummer] using hUZ u' hu' z hz
  have hP1Z := runPassZ_all_create env fc fa hg2 zrs
    ⟨([] : List DestCustomer) ++ mkUserCusts env fc fa 0 users,
      0 + users.length⟩ hZpre hZp
  have hrun1 : runSync env fc fa ⟨[], 0⟩ users zrs =
      (⟨mkUserCusts env fc fa 0 users ++
          mkZrCusts env fc fa users.length zrs,
        users.length + zrs.length⟩,
        ⟨0, users.length, 0⟩, ⟨0, zrs.length, 0⟩) := by
    simp only [runSync, hP1U, hP1Z]
    simp
  -- run 2: user pass updates everything in place
  have hZCcf : ∀ c ∈ mkZrCusts env fc fa users.length zrs,
      c.fields.customFields = some none := mkZrCusts_customFields env fc fa
  have hIdsU : ∀ c ∈ ([] : List DestCustomer) ++
      mkZrCusts env fc fa users.length zrs,
      ∀ i, i < users.length → c.custId ≠ fc (0 + i) := by
    intro c hc i hi
    have hc' : c ∈ mkZrCusts env fc fa users.length zrs := by simpa using hc
    obtain ⟨j, z', hj, hz', rfl⟩ := mem_mkZrCusts env fc fa hc'
    rw [mkCust_custId]
    intro hEq
    have := hfc hEq
    omega
  have hP2U := runPassU_all_update env fc fa hfc users 0 []
    (mkZrCusts env fc fa users.length zrs) (users.length + zrs.length)
    (by simp) hZCcf hIdsU hU
  have hP2U' : runPassU env fc fa
      ⟨mkUserCusts env fc fa 0 users ++
        mkZrCusts env fc fa users.length zrs,
        users.length + zrs.length⟩ users =
      (⟨(mkUserCusts env fc fa 0 users).map clearCF ++
          mkZrCusts env fc fa users.length zrs,
        users.length + zrs.length⟩, ⟨users.length, 0, 0⟩) := by
    simpa using hP2U
  -- run 2: ZR pass updates everything and leaves the state unchanged
  have hDcn : ∀ c ∈ (mkUserCusts env fc fa 0 users).map clearCF,
      ∀ z ∈ zrs, c.fields.customerNumber ≠ z.zrNummer := by
    intro c hc z hz
    obtain ⟨c₀, hc₀, rfl⟩ := List.mem_map.mp hc
    rw [clearCF_customerNumber]
    obtain ⟨j, u', hj, hu', rfl⟩ := mem_mkUserCusts env fc fa hc₀
    rw [mkCust_customerNumber]
    simpa [Contact.zrNummer] using hUZ u' hu' z hz
  have hIdsZ : ∀ c ∈ (mkUserCusts env fc fa 0 users).map clearCF ++
      ([] : List DestCustomer),
      ∀ i, i < zrs.length → c.custId ≠ fc (users.length + i) := by
    intro c hc i hi
    have hc' : c ∈ (mkUserCusts env fc fa 0 users).map clearCF := by
      simpa using hc
    obtain ⟨c₀, hc₀, rfl⟩ := List.mem_map.mp hc'
    rw [clearCF_custId]
    obtain ⟨j, u', hj, hu', rfl⟩ := mem_mkUserCusts env fc fa hc₀
    rw [mkCust_custId]
    intro hEq
    have := hfc hEq
    omega
  have hP2Z := runPassZ_all_update env fc fa hfc zrs users.length
    ((mkUserCusts env fc fa 0 users).map clearCF) []
    (users.length + zrs.length) hDcn (by simp) hIdsZ hZp
  have hP2Z' : runPassZ env fc fa
      ⟨(mkUserCusts env fc fa 0 users).map clearCF ++
        mkZrCusts env fc fa users.length zrs,
        users.length + zrs.length⟩ zrs =
      (⟨(mkUserCusts env fc fa 0 users).map clearCF ++
          mkZrCusts env fc fa users.length zrs,
        users.length + zrs.length⟩, ⟨zrs.length, 0, 0⟩) := by
    simpa using hP2Z
  have hrun2 : runSync env fc fa
      ⟨mkUserCusts env fc fa 0 users ++
        mkZrCusts env fc fa users.length zrs,
        users.length + zrs.length⟩ users zrs =
      (⟨(mkUserCusts env fc fa 0 users).map clearCF ++
          mkZrCusts env fc fa users.length zrs,
        users.length + zrs.length⟩,
        ⟨users.length, 0, 0⟩, ⟨zrs.length, 0, 0⟩) := by
    simp only [runSync, hP2U', hP2Z']
  rw [hrun1]
  dsimp only
  rw [hrun2]
  refine ⟨rfl, rfl, ?_⟩
  rw [List.map_append, map_clearCF_mkZrCusts]

theorem fcW_injective : Function.Injective fcW := by
  intro a b h
  have h2 := congrArg (fun s => s.data.length) h
  simpa [fcW] using h2

/-- Witness for `second_run_all_updates_but_clears_custom_field`. -/
theorem second_run_all_updates_but_clears_custom_field_witness :
    (runSync sampleEnv fcW faW
      (runSync sampleEnv fcW faW ⟨[], 0⟩ [sampleUser] [sampleZr]).1
      [sampleUser] [sampleZr]).2.1 = ⟨1, 0, 0⟩ ∧
    (runSync sampleEnv fcW faW
      (runSync sampleEnv fcW faW ⟨[], 0⟩ [sampleUser] [sampleZr]).1
      [sampleUser] [sampleZr]).2.2 = ⟨1, 0, 0⟩ ∧
    (runSync sampleEnv fcW faW
      (runSync sampleEnv fcW faW ⟨[], 0⟩ [sampleUser] [sampleZr]).1
      [sampleUser] [sampleZr]).1.dest =
      (runSync sampleEnv fcW faW ⟨[], 0⟩ [sampleUser]
        [sampleZr]).1.dest.map clearCF :=
  second_run_all_updates_but_clears_custom_field sampleEnv fcW faW
    [sampleUser] [sampleZr] fcW_injective (by decide) (by decide)
    (by simp) (by simp) (by decide)

end Spotmarkt
